import Mathlib

/-!
Verification development for the `huelightcli` repository (Rust): a
command-line client for the Philips Hue Bridge local HTTP API.

The core under study is `huelight-core`: the Bridge API operation layer
(`src/huelight-core/src/hue_api.rs`), the response models
(`src/huelight-core/src/models/{createuser,hueerror,light}.rs`), the error
taxonomy (`src/huelight-core/src/error.rs`) and the persisted configuration
store (`src/huelight-core/src/config.rs`).

Shallow-embedding conventions:
- Rust strings are Lean `String`s; Rust byte-index slicing (which panics on a
  non-character boundary) is modelled explicitly on the UTF-8 byte layout via
  `Char.utf8Size`, returning `Option` (`none` = panic).
- `serde_json::from_str::<T>` is modelled as a concrete JSON text parser
  (`parseJson`, integers only — the bridge payloads relevant here carry no
  floating point numbers) followed by a decoder for `T` that mirrors the
  derived serde `Deserialize` implementations, including `#[serde(untagged)]`
  variant order and duplicate/unknown-field treatment.
- Async functions are stateless request/response round trips; each operation
  is embedded as a function of the transport response body it receives, paired
  with the list of log lines it emits.  Computations that can panic in Rust
  return `Option` (`none` = panic).
-/

namespace HueLight

/-- Model of `serde_json::Value`, restricted to integer numbers (the Hue
bridge payloads modelled here contain no fractional numbers). -/
inductive Json where
  | null : Json
  | bool (b : Bool) : Json
  | num (n : Int) : Json
  | str (s : String) : Json
  | arr (elems : List Json) : Json
  | obj (fields : List (String × Json)) : Json

/-- Left brace character (written via its code point). -/
def lbraceChar : Char := Char.ofNat 123

/-- Right brace character (written via its code point). -/
def rbraceChar : Char := Char.ofNat 125

/-- Backslash character. -/
def bslashChar : Char := Char.ofNat 92

/-- Double quote character. -/
def dquoteChar : Char := Char.ofNat 34

/-- JSON whitespace predicate. -/
def isJsonWs (c : Char) : Bool :=
  c = ' ' || c = Char.ofNat 9 || c = Char.ofNat 10 || c = Char.ofNat 13

/-- Skip JSON whitespace. -/
def skipWs : List Char → List Char
  | [] => []
  | c :: cs => if isJsonWs c then skipWs cs else c :: cs

/-- Hexadecimal digit value. -/
def hexVal (c : Char) : Option Nat :=
  if '0' ≤ c ∧ c ≤ '9' then some (c.toNat - '0'.toNat)
  else if 'a' ≤ c ∧ c ≤ 'f' then some (c.toNat - 'a'.toNat + 10)
  else if 'A' ≤ c ∧ c ≤ 'F' then some (c.toNat - 'A'.toNat + 10)
  else none

/-- Parse the body of a JSON string literal after the opening quote, handling
the escape sequences serde_json accepts (without surrogate-pair combination).
Returns the decoded characters and the remaining input after the closing
quote. -/
def parseStrBody : Nat → List Char → Option (List Char × List Char)
  | 0, _ => none
  | _ + 1, [] => none
  | fuel + 1, c :: cs =>
    if c = dquoteChar then some ([], cs)
    else if c = bslashChar then
      match cs with
      | [] => none
      | e :: cs2 =>
        if e = dquoteChar ∨ e = bslashChar ∨ e = '/' then
          (parseStrBody fuel cs2).map (fun p => (e :: p.1, p.2))
        else if e = 'n' then
          (parseStrBody fuel cs2).map (fun p => (Char.ofNat 10 :: p.1, p.2))
        else if e = 't' then
          (parseStrBody fuel cs2).map (fun p => (Char.ofNat 9 :: p.1, p.2))
        else if e = 'r' then
          (parseStrBody fuel cs2).map (fun p => (Char.ofNat 13 :: p.1, p.2))
        else if e = 'b' then
          (parseStrBody fuel cs2).map (fun p => (Char.ofNat 8 :: p.1, p.2))
        else if e = 'f' then
          (parseStrBody fuel cs2).map (fun p => (Char.ofNat 12 :: p.1, p.2))
        else if e = 'u' then
          match cs2 with
          | h1 :: h2 :: h3 :: h4 :: cs3 =>
            match hexVal h1, hexVal h2, hexVal h3, hexVal h4 with
            | some v1, some v2, some v3, some v4 =>
              let code := ((v1 * 16 + v2) * 16 + v3) * 16 + v4
              if code.isValidChar then
                (parseStrBody fuel cs3).map (fun p => (Char.ofNat code :: p.1, p.2))
              else none
            | _, _, _, _ => none
          | _ => none
        else none
    else if c.toNat < 32 then none
    else (parseStrBody fuel cs).map (fun p => (c :: p.1, p.2))

/-- Take a maximal run of decimal digits. -/
def takeDigits : List Char → List Char × List Char
  | [] => ([], [])
  | c :: cs =>
    if c.isDigit then
      let p := takeDigits cs
      (c :: p.1, p.2)
    else ([], c :: cs)

/-- Decimal digits to a natural number. -/
def digitsToNat (ds : List Char) : Nat :=
  ds.foldl (fun a c => a * 10 + (c.toNat - '0'.toNat)) 0

/-- Parse a JSON (integer) number: optional minus sign, digits, no leading
zero, and no fraction/exponent (fractional numbers are outside this model). -/
def parseNum (cs : List Char) : Option (Int × List Char) :=
  let (neg, cs1) := match cs with
    | '-' :: rest => (true, rest)
    | rest => (false, rest)
  let (ds, rest) := takeDigits cs1
  match ds with
  | [] => none
  | ['0'] =>
    match rest with
    | '.' :: _ => none
    | 'e' :: _ => none
    | 'E' :: _ => none
    | _ => some (0, rest)
  | d :: _ =>
    if d = '0' then none
    else
      match rest with
      | '.' :: _ => none
      | 'e' :: _ => none
      | 'E' :: _ => none
      | _ =>
        let n : Int := Int.ofNat (digitsToNat ds)
        some (if neg then -n else n, rest)

mutual

/-- Parse one JSON value (input position already meaningful; leading
whitespace is skipped here). -/
def parseVal : Nat → List Char → Option (Json × List Char)
  | 0, _ => none
  | fuel + 1, cs =>
    match skipWs cs with
    | 'n' :: 'u' :: 'l' :: 'l' :: rest => some (.null, rest)
    | 't' :: 'r' :: 'u' :: 'e' :: rest => some (.bool true, rest)
    | 'f' :: 'a' :: 'l' :: 's' :: 'e' :: rest => some (.bool false, rest)
    | c :: rest =>
      if c = dquoteChar then
        (parseStrBody (fuel + 1) rest).map (fun p => (.str (String.mk p.1), p.2))
      else if c = '[' then
        match skipWs rest with
        | ']' :: rest2 => some (.arr [], rest2)
        | _ => (parseArrItems fuel rest).map (fun p => (.arr p.1, p.2))
      else if c = lbraceChar then
        match skipWs rest with
        | r :: rest2 =>
          if r = rbraceChar then some (.obj [], rest2)
          else (parseObjItems fuel rest).map (fun p => (.obj p.1, p.2))
        | [] => none
      else
        (parseNum (c :: rest)).map (fun p => (.num p.1, p.2))
    | [] => none

/-- Parse the non-empty comma-separated items of a JSON array, up to and
including the closing bracket. -/
def parseArrItems : Nat → List Char → Option (List Json × List Char)
  | 0, _ => none
  | fuel + 1, cs => do
    let (v, rest) ← parseVal fuel cs
    match skipWs rest with
    | ',' :: rest2 => (parseArrItems fuel rest2).map (fun p => (v :: p.1, p.2))
    | ']' :: rest2 => some ([v], rest2)
    | _ => none

/-- Parse the non-empty comma-separated members of a JSON object, up to and
including the closing brace. -/
def parseObjItems : Nat → List Char → Option (List (String × Json) × List Char)
  | 0, _ => none
  | fuel + 1, cs =>
    match skipWs cs with
    | c :: rest =>
      if c = dquoteChar then do
        let (k, rest2) ← parseStrBody (fuel + 1) rest
        match skipWs rest2 with
        | ':' :: rest3 => do
          let (v, rest4) ← parseVal fuel rest3
          match skipWs rest4 with
          | ',' :: rest5 =>
            (parseObjItems fuel rest5).map (fun p => ((String.mk k, v) :: p.1, p.2))
          | r :: rest5 =>
            if r = rbraceChar then some ([(String.mk k, v)], rest5) else none
          | [] => none
        | _ => none
      else none
    | [] => none

end

/-- Model of the `serde_json` text parser (`serde_json::from_str` up to its
`Value` stage): parse one value and require only whitespace to follow. -/
def parseJson (s : String) : Option Json :=
  match parseVal (s.length + 1) s.data with
  | some (v, rest) => if skipWs rest = [] then some v else none
  | none => none

/-! String utilities modelling Rust string operations. -/

/-- UTF-8 byte length of a character list (Rust `str::len`). -/
def byteLen (cs : List Char) : Nat :=
  (cs.map Char.utf8Size).sum

/-- Rust byte slicing `&s[..n]` (with `n ≤ s.len()`): returns the prefix of
`n` bytes when `n` falls on a character boundary, and `none` (Rust panics
with "byte index is not a char boundary") otherwise. -/
def byteSlicePrefix : List Char → Nat → Option (List Char)
  | _, 0 => some []
  | [], _ + 1 => none
  | c :: cs, n + 1 =>
    if c.utf8Size ≤ n + 1 then
      (byteSlicePrefix cs (n + 1 - c.utf8Size)).map (fun p => c :: p)
    else none

/-- The raw-body snippet `&res[..res.len().min(200)]` used by the parse
failure log messages in `hue_api.rs` (`none` = Rust slicing panic). -/
def snippet (res : String) : Option String :=
  (byteSlicePrefix res.data (min (byteLen res.data) 200)).map String.mk

/-- Substring containment on character lists. -/
def listContains (hay needle : List Char) : Bool :=
  match hay with
  | [] => needle.isEmpty
  | _ :: t => needle.isPrefixOf hay || listContains t needle

/-- Substring containment on strings (Rust `str::contains`). -/
def strContains (hay needle : String) : Bool :=
  listContains hay.data needle.data

/-! Response models, from `src/huelight-core/src/models/createuser.rs`,
`models/hueerror.rs` and `models/light.rs`. -/

/-- `SuccessDetail` (createuser.rs). -/
structure SuccessDetail where
  username : String
deriving DecidableEq, Repr

/-- `ErrorDetail` (same shape in createuser.rs and hueerror.rs):
`type` (i32, renamed to `_type`), `address`, `description`. -/
structure ErrorDetail where
  _type : Int
  address : String
  description : String
deriving DecidableEq, Repr

/-- `CreateUserEntry` (createuser.rs): `#[serde(untagged)]`, `Success`
declared before `Error`. -/
inductive CreateUserEntry where
  | success (success : SuccessDetail)
  | error (error : ErrorDetail)
deriving DecidableEq, Repr

/-- `User` (createuser.rs): dual-purpose request/response value. -/
structure User where
  devicetype : Option String
  username : Option String
deriving DecidableEq, Repr

/-- `User::with_devicetype`. -/
def User.with_devicetype (devicetype : String) : User :=
  ⟨some devicetype, none⟩

/-- `User::with_username`. -/
def User.with_username (username : String) : User :=
  ⟨none, some username⟩

/-- `CreateUserResponse = Vec<CreateUserEntry>`. -/
abbrev CreateUserResponse := List CreateUserEntry

/-- `HueSuccessDetail = HashMap<String, Value>` (hueerror.rs), modelled as an
association list with unique keys (insertion overwrites). -/
abbrev HueSuccessDetail := List (String × Json)

/-- `HueResponseEntry` (hueerror.rs): `#[serde(untagged)]`, `Error` declared
before `Success` — the opposite order from `CreateUserEntry`. -/
inductive HueResponseEntry where
  | error (error : ErrorDetail)
  | success (success : HueSuccessDetail)

/-- `HueResponse = Vec<HueResponseEntry>`. -/
abbrev HueResponse := List HueResponseEntry

/-- `LightState` (light.rs): all fields optional, serialized with
`skip_serializing_if = "Option::is_none"`.  `brightness` and `hue` are `u16`,
`saturation` is `u8`; the machine-integer ranges are carried by the
well-formedness predicate `LightState.wf` below and enforced by the decoder. -/
structure LightState where
  on_ : Option Bool
  brightness : Option Nat
  hue : Option Nat
  saturation : Option Nat
deriving DecidableEq, Repr

/-- `LightState::default()`: every field `None`. -/
def LightState.default : LightState :=
  ⟨none, none, none, none⟩

/-- `LightState::with_on`. -/
def LightState.with_on (s : LightState) (b : Bool) : LightState :=
  { s with on_ := some b }

/-- `LightState::with_brightness` (argument is a `u16`). -/
def LightState.with_brightness (s : LightState) (brightness : Nat) : LightState :=
  { s with brightness := some brightness }

/-- `LightState::with_hue` (argument is a `u16`). -/
def LightState.with_hue (s : LightState) (hue : Nat) : LightState :=
  { s with hue := some hue }

/-- `LightState::with_saturation` (argument is a `u8`). -/
def LightState.with_saturation (s : LightState) (saturation : Nat) : LightState :=
  { s with saturation := some saturation }

/-- The ranges imposed by the Rust field types `u16`/`u16`/`u8`. -/
def LightState.wf (s : LightState) : Prop :=
  (∀ b ∈ s.brightness, b < 65536) ∧ (∀ h ∈ s.hue, h < 65536) ∧
    (∀ v ∈ s.saturation, v < 256)

/-- `Light` (light.rs). -/
structure Light where
  state : LightState
  name : String
  _type : String
deriving DecidableEq, Repr

/-- `LightId = u32`. -/
abbrev LightId := Nat

/-- `LightResponse(pub HashMap<LightId, Light>)`, the map modelled as an
association list with unique keys (insertion overwrites). -/
structure LightResponse where
  lights : List (LightId × Light)

/-! Decoders mirroring the derived serde `Deserialize` implementations,
applied to an already-parsed `Json` value (serde's untagged enums literally
buffer the input as a `Value` first). -/

/-- Struct-field lookup: `some none` = absent, `some (some v)` = present
once, `none` = duplicate field (a derived serde struct rejects duplicates). -/
def getField (fields : List (String × Json)) (k : String) : Option (Option Json) :=
  match fields.filter (fun f => f.1 = k) with
  | [] => some none
  | [f] => some (some f.2)
  | _ => none

/-- serde `String`: only a JSON string. -/
def decodeString : Json → Option String
  | .str s => some s
  | _ => none

/-- serde `bool`: only a JSON boolean. -/
def decodeBool : Json → Option Bool
  | .bool b => some b
  | _ => none

/-- serde `i32`: an in-range integer. -/
def decodeI32 : Json → Option Int
  | .num n => if -(2 ^ 31 : Int) ≤ n ∧ n < 2 ^ 31 then some n else none
  | _ => none

/-- serde `u16`: an in-range non-negative integer. -/
def decodeU16 : Json → Option Nat
  | .num (Int.ofNat n) => if n < 65536 then some n else none
  | _ => none

/-- serde `u8`: an in-range non-negative integer. -/
def decodeU8 : Json → Option Nat
  | .num (Int.ofNat n) => if n < 256 then some n else none
  | _ => none

/-- serde `Option<T>` struct field: absent or JSON `null` give `None`. -/
def decodeOptField (dec : Json → Option α) : Option Json → Option (Option α)
  | none => some none
  | some .null => some none
  | some v => (dec v).map some

/-- `SuccessDetail` decoder: requires field `username`, ignores unknown
fields, rejects duplicates. -/
def decodeSuccessDetail (j : Json) : Option SuccessDetail :=
  match j with
  | .obj fs => do
    let uf ← getField fs "username"
    let uv ← uf
    let u ← decodeString uv
    pure ⟨u⟩
  | _ => none

/-- `ErrorDetail` decoder: requires fields `type`, `address`,
`description`. -/
def decodeErrorDetail (j : Json) : Option ErrorDetail :=
  match j with
  | .obj fs => do
    let tf ← getField fs "type"
    let tv ← tf
    let t ← decodeI32 tv
    let af ← getField fs "address"
    let av ← af
    let a ← decodeString av
    let df ← getField fs "description"
    let dv ← df
    let d ← decodeString dv
    pure ⟨t, a, d⟩
  | _ => none

/-- An untagged struct variant with single field `k`: the input must be an
object carrying `k` (unknown fields ignored, duplicates rejected) whose value
decodes with `dec`. -/
def decodeKeyedVariant (j : Json) (k : String) (dec : Json → Option α) : Option α :=
  match j with
  | .obj fs =>
    match getField fs k with
    | some (some v) => dec v
    | _ => none
  | _ => none

/-- `CreateUserEntry` decoder: untagged, tries `Success` then `Error`
(declaration order in createuser.rs). -/
def decodeCreateUserEntry (j : Json) : Option CreateUserEntry :=
  match decodeKeyedVariant j "success" decodeSuccessDetail with
  | some s => some (.success s)
  | none => (decodeKeyedVariant j "error" decodeErrorDetail).map .error

/-- `HashMap<String, Value>` decoder: any JSON object, later duplicate keys
overwriting earlier ones. -/
def assocInsert (m : List (String × Json)) (k : String) (v : Json) :
    List (String × Json) :=
  match m with
  | [] => [(k, v)]
  | (k0, v0) :: t => if k0 = k then (k, v) :: t else (k0, v0) :: assocInsert t k v

/-- `HueSuccessDetail` decoder. -/
def decodeSuccessMap (j : Json) : Option HueSuccessDetail :=
  match j with
  | .obj fs => some (fs.foldl (fun m f => assocInsert m f.1 f.2) [])
  | _ => none

/-- `HueResponseEntry` decoder: untagged, tries `Error` then `Success`
(declaration order in hueerror.rs). -/
def decodeHueResponseEntry (j : Json) : Option HueResponseEntry :=
  match decodeKeyedVariant j "error" decodeErrorDetail with
  | some e => some (.error e)
  | none => (decodeKeyedVariant j "success" decodeSuccessMap).map .success

/-- `Vec<T>` decoder: a JSON array decoded elementwise, in order. -/
def decodeList (dec : Json → Option α) : Json → Option (List α)
  | .arr xs => xs.mapM dec
  | _ => none

/-- `CreateUserResponse` decoder. -/
def decodeCreateUserResponse : Json → Option CreateUserResponse :=
  decodeList decodeCreateUserEntry

/-- `HueResponse` decoder. -/
def decodeHueResponse : Json → Option HueResponse :=
  decodeList decodeHueResponseEntry

/-- `LightState` decoder: all four fields optional (`bri`/`sat` renames),
unknown fields ignored, duplicates rejected. -/
def decodeLightState (j : Json) : Option LightState :=
  match j with
  | .obj fs => do
    let onF ← getField fs "on"
    let onV ← decodeOptField decodeBool onF
    let briF ← getField fs "bri"
    let bri ← decodeOptField decodeU16 briF
    let hueF ← getField fs "hue"
    let hue ← decodeOptField decodeU16 hueF
    let satF ← getField fs "sat"
    let sat ← decodeOptField decodeU8 satF
    pure ⟨onV, bri, hue, sat⟩
  | _ => none

/-- The serialized fields of a `LightState` (`serde_json::to_string` value
content): fields in declaration order, a field omitted entirely when `None`
(`skip_serializing_if = "Option::is_none"`), with the `bri`/`sat` renames. -/
def LightState.serializedFields (s : LightState) : List (String × Json) :=
  (match s.on_ with | some b => [("on", Json.bool b)] | none => []) ++
    (match s.brightness with | some n => [("bri", Json.num (Int.ofNat n))] | none => []) ++
    (match s.hue with | some n => [("hue", Json.num (Int.ofNat n))] | none => []) ++
    (match s.saturation with | some n => [("sat", Json.num (Int.ofNat n))] | none => [])

/-- `LightState` serializer. -/
def LightState.serializeJson (s : LightState) : Json :=
  .obj s.serializedFields

/-- `Light` decoder: fields `state`, `name`, `type`. -/
def decodeLight (j : Json) : Option Light :=
  match j with
  | .obj fs => do
    let sf ← getField fs "state"
    let sv ← sf
    let s ← decodeLightState sv
    let nf ← getField fs "name"
    let nv ← nf
    let n ← decodeString nv
    let tf ← getField fs "type"
    let tv ← tf
    let t ← decodeString tv
    pure ⟨s, n, t⟩
  | _ => none

/-- A `u32` map key: serde_json parses the object key string as an integer. -/
def decodeU32Key (s : String) : Option Nat :=
  match parseNum s.data with
  | some (n, []) => if 0 ≤ n ∧ n < 2 ^ 32 then some n.toNat else none
  | _ => none

/-- Insertion for the `HashMap<LightId, Light>` model. -/
def lightsInsert (m : List (LightId × Light)) (k : LightId) (v : Light) :
    List (LightId × Light) :=
  match m with
  | [] => [(k, v)]
  | (k0, v0) :: t => if k0 = k then (k, v) :: t else (k0, v0) :: lightsInsert t k v

/-- `LightResponse` decoder: a JSON object whose keys parse as `u32` and
whose values decode as `Light`. -/
def decodeLightResponse (j : Json) : Option LightResponse :=
  match j with
  | .obj fs => do
    let entries ← fs.mapM (fun f => do
      let k ← decodeU32Key f.1
      let v ← decodeLight f.2
      pure (k, v))
    pure ⟨entries.foldl (fun m e => lightsInsert m e.1 e.2) []⟩
  | _ => none

/-! Error taxonomy, from `src/huelight-core/src/error.rs`. -/

/-- `ConfigError`. -/
inductive ConfigError where
  | configDirectoryNotFoundError
  | configDirectoryCreateError
  | configPathInvalidError
deriving DecidableEq, Repr

/-- `HueBridgeError`. -/
inductive HueBridgeError where
  | linkButtonNotPressed
  | lightNotFound
  | unauthorizedUser
  | unexpectedJSON
  | other (code : String) (message : String)
deriving DecidableEq, Repr

/-- `CoreError`.  Payload-carrying library errors (`reqwest::Error`,
`serde_json::Error`, `std::io::Error`) are modelled as their display
strings. -/
inductive CoreError where
  | network (message : String)
  | serialization (message : String)
  | fileHandlerError (message : String)
  | bridge (e : HueBridgeError)
  | config (e : ConfigError)
  | invalidReqwestHeaderName
  | invalidReqwestHeaderValue
  | unexpectedResponse (message : String)
deriving DecidableEq, Repr

/-- Placeholder for the display text of a `serde_json` syntax error (the
exact text is serde-internal; the modelled log lines only interpolate it). -/
def serdeSyntaxErrText : String := "expected value"

/-- Placeholder for the display text of a `serde_json` error where the text
parsed but did not match the target shape. -/
def serdeShapeErrText : String := "data did not match the expected shape"

/-- `serde_json::from_str::<CreateUserResponse>`. -/
def from_str_createUserResponse (s : String) : Except String CreateUserResponse :=
  match parseJson s with
  | none => .error serdeSyntaxErrText
  | some j =>
    match decodeCreateUserResponse j with
    | none => .error serdeShapeErrText
    | some v => .ok v

/-- `serde_json::from_str::<HueResponse>`. -/
def from_str_hueResponse (s : String) : Except String HueResponse :=
  match parseJson s with
  | none => .error serdeSyntaxErrText
  | some j =>
    match decodeHueResponse j with
    | none => .error serdeShapeErrText
    | some v => .ok v

/-- `serde_json::from_str::<LightResponse>`. -/
def from_str_lightResponse (s : String) : Except String LightResponse :=
  match parseJson s with
  | none => .error serdeSyntaxErrText
  | some j =>
    match decodeLightResponse j with
    | none => .error serdeShapeErrText
    | some v => .ok v

/-! The Bridge API operations, from `src/huelight-core/src/hue_api.rs`.
Each is embedded as a function of the transport response body it receives
(the network call itself goes through the injected `HueClient`); the value is
the operation result paired with the log lines written to the injected
`ILogger`, wrapped in `Option` where Rust can panic (`none` = panic). -/

/-- `HueApiV1::async_get_all_lights`, given the body returned by
`client.get`: parse as `LightResponse`; on failure log a message carrying the
error and the truncated raw-body snippet (this byte slice can panic) and
return `CoreError::Serialization`. -/
def async_get_all_lights (res : String) :
    Option (Except CoreError LightResponse × List String) :=
  match from_str_lightResponse res with
  | .ok parsed => some (.ok parsed, [])
  | .error err =>
    (snippet res).map (fun sn =>
      (.error (.serialization err),
       ["Failed to parse lights JSON: " ++ err ++ ". Raw (truncated): " ++ sn]))

/-- `HueApiV1::async_set_light_state`, given the state to send and the body
returned by `client.put_json`: serializing the state cannot fail, the
response is parsed as `HueResponse` (`map_err(CoreError::Serialization)`, no
logging) and the whole parsed list is returned. -/
def async_set_light_state (state : LightState) (res : String) :
    Except CoreError HueResponse × List String :=
  let _json_state := state.serializeJson
  match from_str_hueResponse res with
  | .error err => (.error (.serialization err), [])
  | .ok hue_response_list => (.ok hue_response_list, [])

/-- The fixed message logged and returned when the parsed create-user
response array is empty. -/
def unrecognizedJsonMsg : String :=
  "User could not be created. The Hue Bridge returned an unrecognized JSON format."

/-- `async_create_user`, given the body returned by `client.post_json`:
parse as `CreateUserResponse` (on failure: log with truncated snippet —
a byte slice that can panic — and return `CoreError::Serialization`), then
classify the first entry. -/
def async_create_user (res : String) :
    Option (Except CoreError User × List String) :=
  match from_str_createUserResponse res with
  | .error err =>
    (snippet res).map (fun sn =>
      (.error (.serialization err),
       ["Failed to parse CreateUserResponse JSON: " ++ err ++
         ". Raw(truncated): " ++ sn]))
  | .ok parsed =>
    match parsed.head? with
    | some (.success s) =>
      let message := "User created successfully! Username: " ++ s.username
      some (.ok (User.with_username s.username), [message])
    | some (.error e) =>
      let message := "Error creating user: " ++ toString e._type ++ " - " ++
        e.address ++ " - " ++ e.description
      if e._type = 101 then
        some (.error (.bridge .linkButtonNotPressed), [message])
      else
        some (.error (.bridge (.other (toString e._type) e.description)), [message])
    | none =>
      some (.error (.unexpectedResponse unrecognizedJsonMsg), [unrecognizedJsonMsg])

/-! Persistent configuration store, from `src/huelight-core/src/config.rs`. -/

/-- `Config`. -/
structure Config where
  bridge_ip : String
  username : String
deriving DecidableEq, Repr

/-- The injected `FileHandler` trait. -/
structure FileHandler where
  read_file : String → Except CoreError String
  write_file : String → String → Except CoreError Unit
  create_dir_all : String → Except CoreError Unit

/-- Trace of file-handler operations actually invoked, in order. -/
inductive FileOp where
  | createDirAll (path : String)
  | writeFile (path : String) (content : String)
  | readFile (path : String)
deriving DecidableEq, Repr

/-- Lower-case hexadecimal digit. -/
def hexDigitChar (n : Nat) : Char :=
  if n < 10 then Char.ofNat (48 + n) else Char.ofNat (97 + n - 10)

/-- JSON string escaping as produced by `serde_json::to_string`. -/
def jsonEscapeChar (c : Char) : List Char :=
  if c = dquoteChar then [bslashChar, dquoteChar]
  else if c = bslashChar then [bslashChar, bslashChar]
  else if c = Char.ofNat 8 then [bslashChar, 'b']
  else if c = Char.ofNat 9 then [bslashChar, 't']
  else if c = Char.ofNat 10 then [bslashChar, 'n']
  else if c = Char.ofNat 12 then [bslashChar, 'f']
  else if c = Char.ofNat 13 then [bslashChar, 'r']
  else if c.toNat < 32 then
    [bslashChar, 'u', '0', '0', hexDigitChar (c.toNat / 16), hexDigitChar (c.toNat % 16)]
  else [c]

/-- Render a JSON string literal. -/
def jsonRenderStr (s : String) : String :=
  String.mk (dquoteChar :: s.data.flatMap jsonEscapeChar ++ [dquoteChar])

/-- `serde_json::to_string(&Config)` — serializing two `String` fields cannot
fail. -/
def Config.toJsonString (self : Config) : String :=
  String.mk [lbraceChar] ++ "\"bridge_ip\":" ++ jsonRenderStr self.bridge_ip ++
    ",\"username\":" ++ jsonRenderStr self.username ++ String.mk [rbraceChar]

/-- Debug rendering (`{:?}`) of a `CoreError`, used only inside a modelled
log line. -/
def coreErrorDebug : CoreError → String
  | .network m => "Network(" ++ m ++ ")"
  | .serialization m => "Serialization(" ++ m ++ ")"
  | .fileHandlerError m => "FileHandlerError(" ++ m ++ ")"
  | .bridge _ => "Bridge(..)"
  | .config _ => "Config(..)"
  | .invalidReqwestHeaderName => "InvalidReqwestHeaderName(..)"
  | .invalidReqwestHeaderValue => "InvalidReqwestHeaderValue(..)"
  | .unexpectedResponse m => "UnexpectedResponse(" ++ m ++ ")"

/-- `Config::save`, with `dirs::config_dir()` supplied as the parameter
`os_config_dir` (`none` = the OS reports no config directory) and the
injected file handler.  Returns the result, the log lines, and the ordered
trace of file operations invoked.  Paths are modelled as UTF-8 strings, so
`config_path.to_str()` is always `Some` and the
`ConfigError::ConfigPathInvalidError` branch is unreachable here. -/
def Config.save (self : Config) (os_config_dir : Option String)
    (file_handler : FileHandler) :
    Except CoreError Unit × List String × List FileOp :=
  match os_config_dir with
  | none => (.error (.config .configDirectoryNotFoundError), [], [])
  | some d =>
    let config_dir := d ++ "/huelightcli"
    match file_handler.create_dir_all config_dir with
    | .error err =>
      (.error (.config .configDirectoryCreateError),
       ["Failed to create config directory: " ++ coreErrorDebug err],
       [.createDirAll config_dir])
    | .ok _ =>
      let config_path := config_dir ++ "/config.json"
      let config_json := self.toJsonString
      match file_handler.write_file config_path config_json with
      | .error err =>
        (.error err, [], [.createDirAll config_dir, .writeFile config_path config_json])
      | .ok _ =>
        (.ok (),
         ["Saving config to " ++ config_path ++ ": " ++ config_json],
         [.createDirAll config_dir, .writeFile config_path config_json])

/-! Transport header construction. -/

/-- `Header` (name/value pair) from the huelight-core client layer. -/
structure Header where
  name : String
  value : String
deriving DecidableEq, Repr

/-- Modelled from the spec: the `Header` validation and its conversion to a
reqwest header map are code of this repository that is not under `src/` (the
`client.rs` present there is an older revision without `Header`; only
`hue_api.rs` and `error.rs` reference it).  Spec §4.1 requires names/values
to be validated against the HTTP token and value grammar with invalid name
and invalid value as distinct reported errors, not panics.  HTTP token
characters (RFC 7230): alphanumerics and `!#$%&'*+-.^_|~` and backtick. -/
def isHttpTokenChar (c : Char) : Bool :=
  c.isAlphanum || c = '!' || c = '#' || c = '$' || c = '%' || c = '&' ||
    c = Char.ofNat 39 || c = '*' || c = '+' || c = '-' || c = '.' ||
    c = '^' || c = '_' || c = Char.ofNat 96 || c = '|' || c = '~'

/-- Modelled from the spec: a valid HTTP header name is a non-empty token. -/
def isValidHeaderNameStr (s : String) : Bool :=
  !s.isEmpty && s.data.all isHttpTokenChar

/-- Modelled from the spec: a valid HTTP header value character is horizontal
tab or any character that is not a control character (codes below 32 and
127 are controls). -/
def isValidHeaderValueChar (c : Char) : Bool :=
  c = Char.ofNat 9 || (32 ≤ c.toNat && c.toNat ≠ 127)

/-- Modelled from the spec: a valid HTTP header value has no control
characters. -/
def isValidHeaderValueStr (s : String) : Bool :=
  s.data.all isValidHeaderValueChar

/-- Modelled from the spec: fallible header construction, validating the
name first and then the value, mapped to the two dedicated `CoreError`
variants from `error.rs`; a total function, so construction never panics and
no network call is involved. -/
def Header.try_new (name value : String) : Except CoreError Header :=
  if !isValidHeaderNameStr name then .error .invalidReqwestHeaderName
  else if !isValidHeaderValueStr value then .error .invalidReqwestHeaderValue
  else .ok ⟨name, value⟩

/-! Concrete transport-response fixtures, from the repository tests and spec
§8 (braces written via hexadecimal escapes). -/

/-- `[{"success":{"username":"testusername"}}]` -/
def createUserSuccessBody : String :=
  "[\x7b\"success\":\x7b\"username\":\"testusername\"\x7d\x7d]"

/-- `[{"error":{"type":101,"address":"/","description":"link button not pressed"}}]` -/
def createUserErrorBody : String :=
  "[\x7b\"error\":\x7b\"type\":101,\"address\":\"/\",\"description\":\"link button not pressed\"\x7d\x7d]"

/-- `[{"error":{"type":7,"address":"/lights/2/state/bri","description":"invalid value"}}, {"success":{"/lights/2/state/on":false}}]` -/
def setLightStateMixedBody : String :=
  "[\x7b\"error\":\x7b\"type\":7,\"address\":\"/lights/2/state/bri\",\"description\":\"invalid value\"\x7d\x7d, \x7b\"success\":\x7b\"/lights/2/state/on\":false\x7d\x7d]"

/-- A transport body of 199 `a` characters followed by `é` (U+00E9, two UTF-8
bytes): 201 bytes long, not valid JSON, and byte index 200 falls inside the
final character. -/
def panicBody : String :=
  String.mk (List.replicate 199 'a' ++ [Char.ofNat 233])

/-! Helper lemmas. -/

/-- A list is a `isPrefixOf`-prefix of itself. -/
theorem isPrefixOf_self (l : List Char) : l.isPrefixOf l = true := by
  induction l with
  | nil => rfl
  | cons c t ih => simp [List.isPrefixOf, ih]

/-- `listContains` finds its needle as a suffix. -/
theorem listContains_append_self (pre needle : List Char) :
    listContains (pre ++ needle) needle = true := by
  induction pre with
  | nil =>
    cases needle with
    | nil => rfl
    | cons c t => simp [listContains, isPrefixOf_self]
  | cons c t ih => simp [listContains, ih]

/-- `strContains` finds its needle as a suffix. -/
theorem strContains_append_self (pre s : String) :
    strContains (pre ++ s) s = true := by
  have h : (pre ++ s).data = pre.data ++ s.data := String.data_append pre s
  simp [strContains, h, listContains_append_self]

/-- `byteLen` of a cons. -/
theorem byteLen_cons (c : Char) (t : List Char) :
    byteLen (c :: t) = c.utf8Size + byteLen t := by
  simp [byteLen]

/-- A successful byte slice yields exactly the requested number of bytes. -/
theorem byteSlicePrefix_byteLen :
    ∀ (cs : List Char) (n : Nat) (p : List Char),
      byteSlicePrefix cs n = some p → byteLen p = n := by
  intro cs
  induction cs with
  | nil =>
    intro n p h
    cases n with
    | zero => simp [byteSlicePrefix] at h; simp [h, byteLen]
    | succ m => simp [byteSlicePrefix] at h
  | cons c t ih =>
    intro n p h
    cases n with
    | zero => simp [byteSlicePrefix] at h; simp [h, byteLen]
    | succ m =>
      simp only [byteSlicePrefix] at h
      by_cases hle : c.utf8Size ≤ m + 1
      · rw [if_pos hle] at h
        cases hrec : byteSlicePrefix t (m + 1 - c.utf8Size) with
        | none => rw [hrec] at h; simp at h
        | some q =>
          rw [hrec] at h
          simp at h
          rw [← h, byteLen_cons, ih _ _ hrec]
          omega
      · rw [if_neg hle] at h
        simp at h

/-- A snippet is at most 200 bytes long. -/
theorem snippet_byteLen_le (res sn : String) (h : snippet res = some sn) :
    byteLen sn.data ≤ 200 := by
  unfold snippet at h
  cases hb : byteSlicePrefix res.data (min (byteLen res.data) 200) with
  | none => rw [hb] at h; cases h
  | some p =>
    rw [hb] at h
    simp at h
    have hlen := byteSlicePrefix_byteLen _ _ _ hb
    rw [← h]
    simpa using Nat.le_trans (Nat.le_of_eq hlen) (Nat.min_le_right _ _)

/-- Decoding a `u16` under the 65536 bound. -/
theorem decodeU16_lt (j : Json) (n : Nat) (h : decodeU16 j = some n) : n < 65536 := by
  cases j with
  | num m =>
    cases m with
    | ofNat k =>
      simp only [decodeU16] at h
      by_cases hk : k < 65536
      · rw [if_pos hk] at h
        cases h
        exact hk
      · rw [if_neg hk] at h
        cases h
    | negSucc k => simp [decodeU16] at h
  | null => simp [decodeU16] at h
  | bool b => simp [decodeU16] at h
  | str s => simp [decodeU16] at h
  | arr l => simp [decodeU16] at h
  | obj l => simp [decodeU16] at h

/-- Decoding a `u8` under the 256 bound. -/
theorem decodeU8_lt (j : Json) (n : Nat) (h : decodeU8 j = some n) : n < 256 := by
  cases j with
  | num m =>
    cases m with
    | ofNat k =>
      simp only [decodeU8] at h
      by_cases hk : k < 256
      · rw [if_pos hk] at h
        cases h
        exact hk
      · rw [if_neg hk] at h
        cases h
    | negSucc k => simp [decodeU8] at h
  | null => simp [decodeU8] at h
  | bool b => simp [decodeU8] at h
  | str s => simp [decodeU8] at h
  | arr l => simp [decodeU8] at h
  | obj l => simp [decodeU8] at h

/-- An optional `u16` field decodes under the 65536 bound. -/
theorem decodeOptField_u16_mem (of : Option Json) (ob : Option Nat)
    (h : decodeOptField decodeU16 of = some ob) (x : Nat) (hx : x ∈ ob) :
    x < 65536 := by
  cases of with
  | none =>
    simp only [decodeOptField] at h
    cases h
    simp at hx
  | some v =>
    cases v with
    | null =>
      simp only [decodeOptField] at h
      cases h
      simp at hx
    | num m =>
      simp only [decodeOptField, Option.map_eq_some'] at h
      obtain ⟨a, ha, rfl⟩ := h
      simp only [Option.mem_def, Option.some.injEq] at hx
      cases hx
      exact decodeU16_lt _ _ ha
    | bool b => simp [decodeOptField, decodeU16] at h
    | str s => simp [decodeOptField, decodeU16] at h
    | arr l => simp [decodeOptField, decodeU16] at h
    | obj l => simp [decodeOptField, decodeU16] at h

/-- An optional `u8` field decodes under the 256 bound. -/
theorem decodeOptField_u8_mem (of : Option Json) (ob : Option Nat)
    (h : decodeOptField decodeU8 of = some ob) (x : Nat) (hx : x ∈ ob) :
    x < 256 := by
  cases of with
  | none =>
    simp only [decodeOptField] at h
    cases h
    simp at hx
  | some v =>
    cases v with
    | null =>
      simp only [decodeOptField] at h
      cases h
      simp at hx
    | num m =>
      simp only [decodeOptField, Option.map_eq_some'] at h
      obtain ⟨a, ha, rfl⟩ := h
      simp only [Option.mem_def, Option.some.injEq] at hx
      cases hx
      exact decodeU8_lt _ _ ha
    | bool b => simp [decodeOptField, decodeU8] at h
    | str s => simp [decodeOptField, decodeU8] at h
    | arr l => simp [decodeOptField, decodeU8] at h
    | obj l => simp [decodeOptField, decodeU8] at h

/-- `Option`-monadic `mapM` preserves length. -/
theorem mapM_option_length {α β : Type} (f : α → Option β) :
    ∀ (xs : List α) (ys : List β), xs.mapM f = some ys → ys.length = xs.length := by
  intro xs
  induction xs with
  | nil =>
    intro ys h
    have h2 : ([] : List β) = ys :=
      Option.some.inj (show (some [] : Option (List β)) = some ys from h)
    simp [← h2]
  | cons x t ih =>
    intro ys h
    rw [List.mapM_cons] at h
    cases hfx : f x with
    | none => rw [hfx] at h; simp at h
    | some y =>
      rw [hfx] at h
      cases hmt : t.mapM f with
      | none => rw [hmt] at h; simp at h
      | some zs =>
        rw [hmt] at h
        simp at h
        rw [← h]
        simp [ih _ hmt]

/-! ## Claim theorems -/

/-- C3: for every `LightState` (fields within their Rust machine-integer
ranges) with at least one field set, serializing to JSON and then
deserializing yields a `LightState` with exactly the same fields present and
equal values, and unset (`None`) fields never appear in the serialized form —
not even as explicit nulls (no field key is emitted at all, and no emitted
value is ever the JSON null). -/
theorem lightState_serde_roundtrip (s : LightState) (hwf : s.wf)
    (hone : s.on_.isSome ∨ s.brightness.isSome ∨ s.hue.isSome ∨ s.saturation.isSome) :
    decodeLightState s.serializeJson = some s ∧
    (s.on_ = none → s.serializedFields.all (fun f => f.1 ≠ "on") = true) ∧
    (s.brightness = none → s.serializedFields.all (fun f => f.1 ≠ "bri") = true) ∧
    (s.hue = none → s.serializedFields.all (fun f => f.1 ≠ "hue") = true) ∧
    (s.saturation = none → s.serializedFields.all (fun f => f.1 ≠ "sat") = true) ∧
    s.serializedFields.all
      (fun f => match f.2 with | Json.null => false | _ => true) = true := by
  obtain ⟨o, b, h, t⟩ := s
  obtain ⟨hb, hh, ht⟩ := hwf
  refine ⟨?_, ?_, ?_, ?_, ?_, ?_⟩
  · cases o <;> cases b <;> cases h <;> cases t <;>
      simp_all [decodeLightState, LightState.serializeJson, LightState.serializedFields,
        getField, decodeOptField, decodeBool, decodeU16, decodeU8, List.filter]
  · intro heq
    cases heq
    cases b <;> cases h <;> cases t <;> simp [LightState.serializedFields]
  · intro heq
    cases heq
    cases o <;> cases h <;> cases t <;> simp [LightState.serializedFields]
  · intro heq
    cases heq
    cases o <;> cases b <;> cases t <;> simp [LightState.serializedFields]
  · intro heq
    cases heq
    cases o <;> cases b <;> cases h <;> simp [LightState.serializedFields]
  · cases o <;> cases b <;> cases h <;> cases t <;> simp [LightState.serializedFields]

/-- A round-trip witness state: on, brightness and hue set, saturation
unset. -/
def roundtripWitState : LightState :=
  ((LightState.default.with_on true).with_brightness 200).with_hue 50000

/-- Witness for C3 at a concrete state. -/
theorem lightState_serde_roundtrip_witness :
    roundtripWitState.wf ∧
    (decodeLightState roundtripWitState.serializeJson = some roundtripWitState ∧
      (roundtripWitState.saturation = none →
        roundtripWitState.serializedFields.all (fun f => f.1 ≠ "sat") = true)) := by
  have hwf : roundtripWitState.wf := by
    refine ⟨?_, ?_, ?_⟩ <;> intro x hx <;>
      first
      | (injection hx with h2; omega)
      | injection hx
  have h := lightState_serde_roundtrip roundtripWitState hwf (Or.inl rfl)
  exact ⟨hwf, h.1, h.2.2.2.2.1⟩

/-- C6 counterexample: `brightness` is a `u16` in the code, so both the
public builder `with_brightness` and deserialization accept 300, which
exceeds 255 — the claimed brightness range invariant [0,255] does not hold. -/
theorem lightState_brightness_over_255 :
    (LightState.default.with_brightness 300).brightness = some 300 ∧
    decodeLightState (Json.obj [("bri", Json.num (Int.ofNat 300))]) =
      some (LightState.default.with_brightness 300) ∧
    ¬(300 ≤ 255) :=
  ⟨rfl, rfl, by omega⟩

/-- C6 (amended): every `LightState` produced by deserialization satisfies
the ranges actually enforced by the code — saturation, when set, lies in
[0,255], while hue and brightness, when set, lie in [0,65535] (brightness is
a `u16`, not a `u8`) — and the builders preserve those ranges for in-range
arguments. -/
theorem lightState_range_invariants :
    (∀ j s, decodeLightState j = some s → s.wf) ∧
    (∀ (s : LightState) b, s.wf → (s.with_on b).wf) ∧
    (∀ (s : LightState) n, s.wf → n < 65536 → (s.with_brightness n).wf) ∧
    (∀ (s : LightState) n, s.wf → n < 65536 → (s.with_hue n).wf) ∧
    (∀ (s : LightState) n, s.wf → n < 256 → (s.with_saturation n).wf) := by
  refine ⟨?_, ?_, ?_, ?_, ?_⟩
  · intro j s h
    cases j with
    | obj fs =>
      simp only [decodeLightState, Option.bind_eq_bind, Option.bind_eq_some,
        Option.pure_def, Option.some.injEq] at h
      obtain ⟨onF, h1, onV, h2, briF, h3, bri, h4, hueF, h5, hue, h6, satF, h7, sat, h8, h9⟩ := h
      cases h9
      exact ⟨fun x hx => decodeOptField_u16_mem _ _ h4 x hx,
             fun x hx => decodeOptField_u16_mem _ _ h6 x hx,
             fun x hx => decodeOptField_u8_mem _ _ h8 x hx⟩
    | null => simp [decodeLightState] at h
    | bool b => simp [decodeLightState] at h
    | num m => simp [decodeLightState] at h
    | str st => simp [decodeLightState] at h
    | arr l => simp [decodeLightState] at h
  · intro s b hwf
    exact ⟨hwf.1, hwf.2.1, hwf.2.2⟩
  · intro s n hwf hn
    refine ⟨?_, hwf.2.1, hwf.2.2⟩
    intro x hx
    injection hx with h2
    omega
  · intro s n hwf hn
    refine ⟨hwf.1, ?_, hwf.2.2⟩
    intro x hx
    injection hx with h2
    omega
  · intro s n hwf hn
    refine ⟨hwf.1, hwf.2.1, ?_⟩
    intro x hx
    injection hx with h2
    omega

/-- Witness for C6 (amended) at a concrete decode. -/
theorem lightState_range_invariants_witness :
    decodeLightState (Json.obj [("sat", Json.num (Int.ofNat 254))]) =
      some (LightState.default.with_saturation 254) ∧
    (LightState.default.with_saturation 254).wf :=
  ⟨rfl, lightState_range_invariants.1 (Json.obj [("sat", Json.num (Int.ofNat 254))])
    (LightState.default.with_saturation 254) rfl⟩

/-- First element of the mixed set-light-state fixture as parsed JSON. -/
def mixedElem1 : Json :=
  Json.obj [("error", Json.obj [("type", Json.num 7),
    ("address", Json.str "/lights/2/state/bri"),
    ("description", Json.str "invalid value")])]

/-- Second element of the mixed set-light-state fixture as parsed JSON. -/
def mixedElem2 : Json :=
  Json.obj [("success", Json.obj [("/lights/2/state/on", Json.bool false)])]

/-- The decoded entries of the mixed set-light-state fixture. -/
def mixedEntries : HueResponse :=
  [.error ⟨7, "/lights/2/state/bri", "invalid value"⟩,
   .success [("/lights/2/state/on", Json.bool false)]]

/-- C1: for every transport response body that parses as a JSON array whose
elements decode as success/error entries, `async_set_light_state` returns
`Ok` carrying the whole parsed array — exactly as many entries as the
response, in the order received (the elementwise decode), never collapsed to
the first element — and emits no log; in particular a response mixing success
and error entries is returned as data (`Ok`), not as an error. -/
theorem async_set_light_state_returns_whole_array
    (state : LightState) (res : String) (elems : List Json) (entries : HueResponse)
    (hparse : parseJson res = some (Json.arr elems))
    (hdec : elems.mapM decodeHueResponseEntry = some entries) :
    async_set_light_state state res = (.ok entries, []) ∧
      entries.length = elems.length := by
  have hdr : decodeHueResponse (Json.arr elems) = some entries := hdec
  constructor
  · simp only [async_set_light_state, from_str_hueResponse, hparse, hdr]
  · exact mapM_option_length _ _ _ hdec

set_option maxRecDepth 20000 in
/-- Witness for C1 at the spec §8 mixed success/error fixture. -/
theorem async_set_light_state_returns_whole_array_witness :
    (parseJson setLightStateMixedBody = some (Json.arr [mixedElem1, mixedElem2]) ∧
      [mixedElem1, mixedElem2].mapM decodeHueResponseEntry = some mixedEntries) ∧
    (async_set_light_state LightState.default setLightStateMixedBody =
      (.ok mixedEntries, []) ∧ mixedEntries.length = 2) := by
  refine ⟨⟨rfl, rfl⟩, ?_⟩
  have h := async_set_light_state_returns_whole_array LightState.default
    setLightStateMixedBody [mixedElem1, mixedElem2] mixedEntries rfl rfl
  exact ⟨h.1, h.2⟩

/-- C2: `async_create_user` is determined by the first entry of the parsed
create-user response array: a Success entry yields `Ok` with a `User`
carrying the returned username and a logged line containing that username;
an Error entry with type 101 yields the LinkButtonNotPressed bridge error;
an Error entry with any other type yields `Other{code, message}` carrying
the numeric type (as a string) and the description verbatim. -/
theorem async_create_user_first_entry_classification
    (res : String) (entries : CreateUserResponse)
    (hparse : from_str_createUserResponse res = .ok entries) :
    (∀ s rest, entries = CreateUserEntry.success s :: rest →
      async_create_user res =
        some (.ok (User.with_username s.username),
          ["User created successfully! Username: " ++ s.username]) ∧
      strContains ("User created successfully! Username: " ++ s.username)
        s.username = true) ∧
    (∀ e rest, entries = CreateUserEntry.error e :: rest → e._type = 101 →
      ∃ msg, async_create_user res =
        some (.error (.bridge .linkButtonNotPressed), [msg])) ∧
    (∀ e rest, entries = CreateUserEntry.error e :: rest → e._type ≠ 101 →
      ∃ msg, async_create_user res =
        some (.error (.bridge (.other (toString e._type) e.description)), [msg])) := by
  refine ⟨?_, ?_, ?_⟩
  · intro s rest hent
    subst hent
    exact ⟨by simp [async_create_user, hparse], strContains_append_self _ _⟩
  · intro e rest hent h101
    subst hent
    exact ⟨"Error creating user: " ++ toString e._type ++ " - " ++ e.address ++
        " - " ++ e.description,
      by simp [async_create_user, hparse, h101]⟩
  · intro e rest hent h101
    subst hent
    exact ⟨"Error creating user: " ++ toString e._type ++ " - " ++ e.address ++
        " - " ++ e.description,
      by simp [async_create_user, hparse, h101]⟩

set_option maxRecDepth 20000 in
/-- Witness for C2 at the two create-user fixtures from the repository
tests. -/
theorem async_create_user_first_entry_classification_witness :
    (from_str_createUserResponse createUserSuccessBody =
        .ok [.success ⟨"testusername"⟩] ∧
      from_str_createUserResponse createUserErrorBody =
        .ok [.error ⟨101, "/", "link button not pressed"⟩]) ∧
    (async_create_user createUserSuccessBody =
        some (.ok (User.with_username "testusername"),
          ["User created successfully! Username: testusername"]) ∧
      strContains "User created successfully! Username: testusername"
        "testusername" = true) ∧
    (∃ msg, async_create_user createUserErrorBody =
      some (.error (.bridge .linkButtonNotPressed), [msg])) := by
  refine ⟨⟨rfl, rfl⟩, ?_, ?_⟩
  · exact (async_create_user_first_entry_classification createUserSuccessBody
      [.success ⟨"testusername"⟩] rfl).1 ⟨"testusername"⟩ [] rfl
  · exact (async_create_user_first_entry_classification createUserErrorBody
      [.error ⟨101, "/", "link button not pressed"⟩] rfl).2.1
      ⟨101, "/", "link button not pressed"⟩ [] rfl rfl

/-- C4 counterexample: on unparseable JSON (`"x"`) `async_create_user`
returns a Serialization error, not the claimed UnexpectedResponse; on an
empty array (`"[]"`) it returns an UnexpectedResponse carrying a fixed
message that contains no snippet of the raw body. -/
theorem async_create_user_snippet_claim_counterexample :
    async_create_user "x" =
      some (.error (.serialization serdeSyntaxErrText),
        ["Failed to parse CreateUserResponse JSON: " ++ serdeSyntaxErrText ++
          ". Raw(truncated): " ++ "x"]) ∧
    async_create_user "[]" =
      some (.error (.unexpectedResponse unrecognizedJsonMsg), [unrecognizedJsonMsg]) ∧
    strContains unrecognizedJsonMsg "[]" = false :=
  ⟨rfl, rfl, rfl⟩

/-- C4 (amended): when the create-user response body is unparseable JSON (or
parses but does not match the expected shape), `async_create_user` logs a
line containing a truncated (at most 200 bytes) snippet of the raw body and
returns a Serialization error; when the body parses to an empty array, it
logs and returns an UnexpectedResponse error carrying a fixed explanatory
message, without a raw-body snippet. -/
theorem async_create_user_failure_modes :
    (∀ res err sn, from_str_createUserResponse res = .error err → snippet res = some sn →
      async_create_user res =
        some (.error (.serialization err),
          ["Failed to parse CreateUserResponse JSON: " ++ err ++
            ". Raw(truncated): " ++ sn]) ∧
      strContains ("Failed to parse CreateUserResponse JSON: " ++ err ++
        ". Raw(truncated): " ++ sn) sn = true ∧
      byteLen sn.data ≤ 200) ∧
    (∀ res, from_str_createUserResponse res = .ok [] →
      async_create_user res =
        some (.error (.unexpectedResponse unrecognizedJsonMsg), [unrecognizedJsonMsg])) := by
  constructor
  · intro res err sn hp hsn
    refine ⟨?_, strContains_append_self _ _, snippet_byteLen_le _ _ hsn⟩
    simp [async_create_user, hp, hsn]
  · intro res hp
    simp [async_create_user, hp]

/-- Witness for C4 (amended) at the two failure inputs. -/
theorem async_create_user_failure_modes_witness :
    (from_str_createUserResponse "x" = .error serdeSyntaxErrText ∧
      snippet "x" = some "x" ∧
      from_str_createUserResponse "[]" = .ok []) ∧
    (async_create_user "x" =
        some (.error (.serialization serdeSyntaxErrText),
          ["Failed to parse CreateUserResponse JSON: " ++ serdeSyntaxErrText ++
            ". Raw(truncated): " ++ "x"]) ∧
      strContains ("Failed to parse CreateUserResponse JSON: " ++ serdeSyntaxErrText ++
        ". Raw(truncated): " ++ "x") "x" = true ∧
      byteLen ("x" : String).data ≤ 200) ∧
    async_create_user "[]" =
      some (.error (.unexpectedResponse unrecognizedJsonMsg), [unrecognizedJsonMsg]) := by
  refine ⟨⟨rfl, rfl, rfl⟩, ?_, ?_⟩
  · exact async_create_user_failure_modes.1 "x" serdeSyntaxErrText "x" rfl rfl
  · exact async_create_user_failure_modes.2 "[]" rfl

/-- C5 counterexample: `async_set_light_state` returns its parse failure as a
typed Serialization error while logging nothing — logging and returning do
not both happen on this path. -/
theorem set_light_state_unlogged_parse_failure :
    async_set_light_state LightState.default "garbage" =
      (.error (.serialization serdeSyntaxErrText), ([] : List String)) := rfl

/-- C5 (amended): `async_get_all_lights` and `async_create_user` log a
human-readable message carrying a truncated raw-body snippet and return a
typed Serialization error on parse failures, and `async_create_user` both
logs and returns a typed bridge error for a bridge-reported error entry;
`async_set_light_state`, however, returns its parse failure as a typed error
without logging, and returns bridge-reported entries as data without
logging or classification. -/
theorem error_logging_discipline :
    (∀ res err sn, from_str_lightResponse res = .error err → snippet res = some sn →
      async_get_all_lights res =
        some (.error (.serialization err),
          ["Failed to parse lights JSON: " ++ err ++ ". Raw (truncated): " ++ sn]) ∧
      strContains ("Failed to parse lights JSON: " ++ err ++ ". Raw (truncated): " ++ sn)
        sn = true) ∧
    (∀ res err sn, from_str_createUserResponse res = .error err → snippet res = some sn →
      ∃ msg, async_create_user res = some (.error (.serialization err), [msg]) ∧
        strContains msg sn = true) ∧
    (∀ res entries e rest, from_str_createUserResponse res = .ok entries →
      entries = CreateUserEntry.error e :: rest →
      ∃ msg, async_create_user res =
        some (.error (if e._type = 101 then .bridge .linkButtonNotPressed
          else .bridge (.other (toString e._type) e.description)), [msg])) ∧
    (∀ (state : LightState) res err, from_str_hueResponse res = .error err →
      async_set_light_state state res = (.error (.serialization err), [])) := by
  refine ⟨?_, ?_, ?_, ?_⟩
  · intro res err sn hp hsn
    exact ⟨by simp [async_get_all_lights, hp, hsn], strContains_append_self _ _⟩
  · intro res err sn hp hsn
    exact ⟨"Failed to parse CreateUserResponse JSON: " ++ err ++ ". Raw(truncated): " ++ sn,
      by simp [async_create_user, hp, hsn], strContains_append_self _ _⟩
  · intro res entries e rest hp hent
    subst hent
    by_cases h101 : e._type = 101
    · exact ⟨"Error creating user: " ++ toString e._type ++ " - " ++ e.address ++
          " - " ++ e.description,
        by simp [async_create_user, hp, h101]⟩
    · exact ⟨"Error creating user: " ++ toString e._type ++ " - " ++ e.address ++
          " - " ++ e.description,
        by simp [async_create_user, hp, h101]⟩
  · intro state res err hp
    simp [async_set_light_state, hp]

/-- Witness for C5 (amended) at concrete failure inputs. -/
theorem error_logging_discipline_witness :
    (from_str_hueResponse "garbage" = .error serdeSyntaxErrText ∧
      from_str_createUserResponse "x" = .error serdeSyntaxErrText ∧
      snippet "x" = some "x") ∧
    async_set_light_state LightState.default "garbage" =
      (.error (.serialization serdeSyntaxErrText), []) ∧
    (∃ msg, async_create_user "x" =
        some (.error (.serialization serdeSyntaxErrText), [msg]) ∧
      strContains msg "x" = true) := by
  refine ⟨⟨rfl, rfl, rfl⟩, ?_, ?_⟩
  · exact error_logging_discipline.2.2.2 LightState.default "garbage" serdeSyntaxErrText rfl
  · exact error_logging_discipline.2.1 "x" serdeSyntaxErrText "x" rfl rfl

/-- C7: if the injected create-directory operation fails, `Config::save`
returns the ConfigDirectoryCreateError kind (after logging) and never
invokes the injected file write; a failure from the injected write itself
propagates to the caller unchanged. -/
theorem config_save_error_paths (cfg : Config) (dir : String) (fh : FileHandler) :
    (∀ e, fh.create_dir_all (dir ++ "/huelightcli") = .error e →
      Config.save cfg (some dir) fh =
        (.error (.config .configDirectoryCreateError),
         ["Failed to create config directory: " ++ coreErrorDebug e],
         [.createDirAll (dir ++ "/huelightcli")]) ∧
      (∀ p c, FileOp.writeFile p c ∉ (Config.save cfg (some dir) fh).2.2)) ∧
    (∀ e, fh.create_dir_all (dir ++ "/huelightcli") = .ok () →
      fh.write_file (dir ++ "/huelightcli" ++ "/config.json") cfg.toJsonString = .error e →
      (Config.save cfg (some dir) fh).1 = .error e) := by
  constructor
  · intro e he
    have hsave : Config.save cfg (some dir) fh =
        (.error (.config .configDirectoryCreateError),
         ["Failed to create config directory: " ++ coreErrorDebug e],
         [.createDirAll (dir ++ "/huelightcli")]) := by
      simp [Config.save, he]
    refine ⟨hsave, ?_⟩
    intro p c
    rw [hsave]
    simp
  · intro e hok hw
    simp [Config.save, hok, hw]

/-- A file handler whose directory creation fails (mirrors the repository
test mock). -/
def mockDirFailHandler : FileHandler :=
  ⟨fun _ => .ok "", fun _ _ => .ok (),
   fun _ => .error (.unexpectedResponse "create directory error")⟩

/-- A file handler whose write fails (mirrors the repository test mock). -/
def mockWriteFailHandler : FileHandler :=
  ⟨fun _ => .ok "", fun _ _ => .error (.unexpectedResponse "write failed"),
   fun _ => .ok ()⟩

/-- Witness for C7 with the two mock handlers. -/
theorem config_save_error_paths_witness :
    (mockDirFailHandler.create_dir_all "/cfg/huelightcli" =
        .error (.unexpectedResponse "create directory error") ∧
      mockWriteFailHandler.create_dir_all "/cfg/huelightcli" = .ok () ∧
      mockWriteFailHandler.write_file "/cfg/huelightcli/config.json"
        (Config.mk "192.168.1.1" "user").toJsonString =
        .error (.unexpectedResponse "write failed")) ∧
    (Config.save (Config.mk "192.168.1.1" "user") (some "/cfg") mockDirFailHandler =
      (.error (.config .configDirectoryCreateError),
       ["Failed to create config directory: " ++
         coreErrorDebug (.unexpectedResponse "create directory error")],
       [.createDirAll "/cfg/huelightcli"]) ∧
      (∀ p c, FileOp.writeFile p c ∉
        (Config.save (Config.mk "192.168.1.1" "user") (some "/cfg")
          mockDirFailHandler).2.2)) ∧
    (Config.save (Config.mk "192.168.1.1" "user") (some "/cfg") mockWriteFailHandler).1 =
      .error (.unexpectedResponse "write failed") := by
  refine ⟨⟨rfl, rfl, rfl⟩, ?_, ?_⟩
  · exact (config_save_error_paths (Config.mk "192.168.1.1" "user") "/cfg"
      mockDirFailHandler).1 (.unexpectedResponse "create directory error") rfl
  · exact (config_save_error_paths (Config.mk "192.168.1.1" "user") "/cfg"
      mockWriteFailHandler).2 (.unexpectedResponse "write failed") rfl rfl

/-- C8: constructing a header with an empty name fails with the
invalid-header-name kind — purely in construction, before any network call —
and constructing a header whose value contains a control character (below
0x20 other than horizontal tab, or DEL) with a grammatically valid name
fails with the invalid-header-value kind; `Header.try_new` is a total
function, so neither case panics. -/
theorem header_construction_validation :
    (∀ value, Header.try_new "" value = .error .invalidReqwestHeaderName) ∧
    (∀ name value c, isValidHeaderNameStr name = true → c ∈ value.data →
      (c.toNat < 32 ∧ c.toNat ≠ 9) ∨ c.toNat = 127 →
      Header.try_new name value = .error .invalidReqwestHeaderValue) := by
  constructor
  · intro value
    rfl
  · intro name value c hname hc hctrl
    have hcv : isValidHeaderValueChar c = false := by
      simp only [isValidHeaderValueChar, Bool.or_eq_false_iff, Bool.and_eq_false_iff]
      constructor
      · rcases hctrl with ⟨h1, h2⟩ | h127
        · simp only [decide_eq_false_iff_not]
          intro heq
          rw [heq] at h2
          exact h2 rfl
        · simp only [decide_eq_false_iff_not]
          intro heq
          rw [heq] at h127
          simp at h127
      · rcases hctrl with ⟨h1, h2⟩ | h127
        · left
          simp only [decide_eq_false_iff_not]
          omega
        · right
          simp only [decide_eq_false_iff_not]
          omega
    have hval : isValidHeaderValueStr value = false := by
      simp only [isValidHeaderValueStr]
      rw [List.all_eq_false]
      exact ⟨c, hc, by simp [hcv]⟩
    simp [Header.try_new, hname, hval]

/-- Witness for C8: an empty name, and a newline inside a value under the
valid name Content-Type. -/
theorem header_construction_validation_witness :
    (isValidHeaderNameStr "Content-Type" = true ∧
      Char.ofNat 10 ∈ ("a\nb" : String).data ∧
      (((Char.ofNat 10).toNat < 32 ∧ (Char.ofNat 10).toNat ≠ 9) ∨
        (Char.ofNat 10).toNat = 127)) ∧
    Header.try_new "" "application/json" = .error .invalidReqwestHeaderName ∧
    Header.try_new "Content-Type" "a\nb" = .error .invalidReqwestHeaderValue := by
  refine ⟨⟨?_, ?_, ?_⟩, ?_, ?_⟩
  · decide
  · decide
  · decide
  · exact header_construction_validation.1 "application/json"
  · exact header_construction_validation.2 "Content-Type" "a\nb" (Char.ofNat 10)
      (by decide) (by decide) (by decide)

/-- A well-formed create-user success payload used by the C9 theorems. -/
def bothKeysSuccessPayload : Json := Json.obj [("username", Json.str "u")]

/-- A well-formed error payload used by the C9 theorems. -/
def bothKeysErrorPayload : Json :=
  Json.obj [("type", Json.num 1), ("address", Json.str "/"), ("description", Json.str "d")]

/-- C9 counterexample: an entry object carrying both a `success` key and an
`error` key whose success payload is not a valid success detail deserializes
as a create-user entry to the Error variant, not the Success variant — the
claimed tie-break does not hold for every object with both keys. -/
theorem create_user_entry_both_keys_counterexample :
    decodeCreateUserEntry
        (Json.obj [("success", Json.num 0), ("error", bothKeysErrorPayload)]) =
      some (.error ⟨1, "/", "d"⟩) := rfl

/-- C9 (amended): for any response entry object carrying both a `success`
key whose payload deserializes as the create-user success detail and an
`error` key whose payload deserializes as the error detail, create-user
deserialization yields the Success variant while set-light-state
deserialization yields the Error variant: the two untagged enums try their
variants in opposite declaration orders. -/
theorem untagged_variant_order_tiebreak (fs : List (String × Json)) (sv ev : Json)
    (hsf : getField fs "success" = some (some sv))
    (hef : getField fs "error" = some (some ev))
    (sd : SuccessDetail) (hsd : decodeSuccessDetail sv = some sd)
    (ed : ErrorDetail) (hed : decodeErrorDetail ev = some ed) :
    decodeCreateUserEntry (Json.obj fs) = some (.success sd) ∧
    decodeHueResponseEntry (Json.obj fs) = some (.error ed) := by
  constructor
  · simp [decodeCreateUserEntry, decodeKeyedVariant, hsf, hsd]
  · simp [decodeHueResponseEntry, decodeKeyedVariant, hef, hed]

/-- Witness for C9 (amended) at a concrete object with both keys
well-formed. -/
theorem untagged_variant_order_tiebreak_witness :
    (getField [("success", bothKeysSuccessPayload), ("error", bothKeysErrorPayload)]
        "success" = some (some bothKeysSuccessPayload) ∧
      getField [("success", bothKeysSuccessPayload), ("error", bothKeysErrorPayload)]
        "error" = some (some bothKeysErrorPayload) ∧
      decodeSuccessDetail bothKeysSuccessPayload = some ⟨"u"⟩ ∧
      decodeErrorDetail bothKeysErrorPayload = some ⟨1, "/", "d"⟩) ∧
    decodeCreateUserEntry
        (Json.obj [("success", bothKeysSuccessPayload), ("error", bothKeysErrorPayload)]) =
      some (.success ⟨"u"⟩) ∧
    decodeHueResponseEntry
        (Json.obj [("success", bothKeysSuccessPayload), ("error", bothKeysErrorPayload)]) =
      some (.error ⟨1, "/", "d"⟩) := by
  refine ⟨⟨rfl, rfl, rfl, rfl⟩, ?_, ?_⟩
  · exact (untagged_variant_order_tiebreak
      [("success", bothKeysSuccessPayload), ("error", bothKeysErrorPayload)]
      bothKeysSuccessPayload bothKeysErrorPayload rfl rfl ⟨"u"⟩ rfl
      ⟨1, "/", "d"⟩ rfl).1
  · exact (untagged_variant_order_tiebreak
      [("success", bothKeysSuccessPayload), ("error", bothKeysErrorPayload)]
      bothKeysSuccessPayload bothKeysErrorPayload rfl rfl ⟨"u"⟩ rfl
      ⟨1, "/", "d"⟩ rfl).2

set_option maxRecDepth 20000 in
/-- C10: evaluating the parse-failure paths at a 201-byte body whose byte
index 200 falls inside a multi-byte character: both `async_create_user` and
`async_get_all_lights` panic (the modelled byte slice `&res[..200]` is not on
a character boundary), instead of logging a snippet and returning a
Serialization error. -/
theorem parse_failure_snippet_panics :
    async_create_user panicBody = none ∧
    async_get_all_lights panicBody = none ∧
    byteLen panicBody.data = 201 ∧
    byteSlicePrefix panicBody.data 200 = none :=
  ⟨rfl, rfl, rfl, rfl⟩

end HueLight
